import Mathlib

/-!
Shallow embedding of the orchestration pipeline of the
UC-2 Regulatory Compliance Library repository
(src/orchestrator/orchestrator.py), together with proofs of the
behavioural properties stated in its specification.

External collaborators (repository, downloader, PDF conversion service,
LLM analyzer, filesystem) are modelled as an abstract environment of
fallible operations over an opaque collaborator state; the orchestrator
code itself is translated line by line.  Every call the orchestrator makes
into a collaborator is recorded in a trace of events, so that claims about
which services are (not) invoked become statements about traces.
-/

namespace RegComp

/-- Message of a raised Python exception, as `str(e)`. -/
abbrev Err := String

/-- Python truthiness of an optional string: `None` and `""` are falsy. -/
def pyTruthy : Option String → Bool
  | none => false
  | some s => s ≠ ""

/-- Value of `getattr(obj, attr, "")` for an optional string attribute. -/
def getattrStr (o : Option String) : String := o.getD ""

/-- Python `str.lower()`, character by character (every string it is applied
to in this pipeline is ASCII, where the two agree). -/
def pyLower (s : String) : String := ⟨s.data.map Char.toLower⟩

/-- Python `str.upper()`, character by character, on ASCII input. -/
def pyUpper (s : String) : String := ⟨s.data.map Char.toUpper⟩

/-- Dictionary read `m.get(k)` on a string-to-string mapping. -/
def metaGet (m : List (String × String)) (k : String) : Option String :=
  (m.find? (fun p => p.1 = k)).map (fun p => p.2)

/-- Dictionary write `m[k] = v` (replace an existing binding, else append). -/
def metaSet : List (String × String) → String → String → List (String × String)
  | [], k, v => [(k, v)]
  | p :: ps, k, v => if p.1 = k then (k, v) :: ps else p :: metaSet ps k v

/-- Document descriptor: the unit of work produced by a crawler and consumed
by the orchestrator (spec section 3; fields read by orchestrator.py). -/
structure Doc where
  title : String
  published_date : Option String
  category : Option String
  source_system : Option String
  regulator : Option String
  doc_path : Option (List String)
  document_url : Option String
  file_type : Option String
  extra_meta : List (String × String)
  document_html : Option String
  compliancecategory_id : Option Nat
  id : Option Nat
deriving DecidableEq

/-- Structured result of the LLM analysis (only the `requirements` list is
inspected by the orchestrator, for its success log message). -/
structure Analysis where
  requirements : List String
deriving DecidableEq

/-- Result of one call into an external collaborator: the call either returns
a value or raises, and in both cases the collaborator state may have
changed. -/
inductive ExR (σ : Type) (α : Type) where
  | ok (a : α) (s : σ)
  | err (e : Err) (s : σ)
deriving DecidableEq

/-- Abstract environment of collaborators consumed by the orchestrator
(repository, downloader, PDF conversion service, LLM analyzer, filesystem),
each modelled as a fallible state-passing operation. -/
structure Env (σ : Type) where
  documentExists : σ → String → Option String → Option (List String) → ExR σ Bool
  getFolderId : σ → String → Option Nat → ExR σ (Option Nat)
  insertFolder : σ → String → Option Nat → ExR σ Nat
  insertRegulation : σ → Doc → ExR σ Nat
  storeComplianceAnalysis : σ → Nat → Analysis → ExR σ Unit
  logProcessing : σ → Option Nat → String → String → String → Option String → ExR σ Unit
  download : σ → Doc → ExR σ String
  pdfcoPdfToHtml : σ → String → String → ExR σ String
  analyzeRegulation : σ → String → Nat → String → ExR σ Analysis
  osPathExists : σ → String → Bool
  osRemove : σ → String → σ

/-- Observable calls the orchestrator makes into its collaborators. -/
inductive Event where
  | documentExists (title : String) (date : Option String) (path : Option (List String))
  | getFolderId (title : String) (parent : Option Nat)
  | insertFolder (title : String) (parent : Option Nat)
  | insertRegulation (title : String)
  | logWrite (regId : Option Nat) (step : String) (status : String) (msg : String)
      (docUrl : Option String)
  | download (title : String) (url : Option String)
  | pdfConvert (path : String) (lang : String)
  | analyze (regId : Nat) (title : String)
  | storeAnalysis (regId : Nat)
  | osRemove (path : String)
deriving DecidableEq

/-- Result of an orchestrator-level computation: a value or a propagating
exception, together with the collaborator state and the trace of calls
made so far. -/
inductive PRes (σ : Type) (α : Type) where
  | ok (a : α) (s : σ) (tr : List Event)
  | err (e : Err) (s : σ) (tr : List Event)
deriving DecidableEq

/-- True when the computation returned normally (raised nothing). -/
def PRes.isOk : PRes σ α → Bool
  | .ok _ _ _ => true
  | .err _ _ _ => false

/-- True when the computation propagated an exception. -/
def PRes.isErr : PRes σ α → Bool
  | .ok _ _ _ => false
  | .err _ _ _ => true

/-- Trace of collaborator calls made by the computation. -/
def PRes.trace : PRes σ α → List Event
  | .ok _ _ tr => tr
  | .err _ _ tr => tr

/-- Prefix an already-recorded trace onto a computation result. -/
def prependTrace (tr : List Event) : PRes σ α → PRes σ α
  | .ok a s tr2 => .ok a s (tr ++ tr2)
  | .err e s tr2 => .err e s (tr ++ tr2)

/-- Total form of `Orchestrator.log` (orchestrator.py lines 31-41): attempt the
repository log write and swallow any raised error, returning the resulting
collaborator state and the trace of the attempted write. -/
def logT (env : Env σ) (s : σ) (regId : Option Nat) (step status message : String)
    (docUrl : Option String) : σ × List Event :=
  match env.logProcessing s regId step status message docUrl with
  | .ok _ s2 => (s2, [Event.logWrite regId step status message docUrl])
  | .err _ s2 => (s2, [Event.logWrite regId step status message docUrl])

/-- Embedding of `Orchestrator.log` (orchestrator.py lines 31-41) as a fallible computation:
the body is a `try/except` around the repository write, so both the success
and the error case of the underlying call return normally. -/
def log (env : Env σ) (s : σ) (regId : Option Nat) (step status message : String)
    (docUrl : Option String) : PRes σ Unit :=
  match env.logProcessing s regId step status message docUrl with
  | .ok _ s2 => .ok () s2 [Event.logWrite regId step status message docUrl]
  | .err _ s2 => .ok () s2 [Event.logWrite regId step status message docUrl]

/-- Embedding of `check_exists_in_db` (orchestrator.py lines 133-140): repository existence
check with every raised error caught and mapped to `False`. -/
def check_exists_in_db (env : Env σ) (s : σ) (title : String) (date : Option String)
    (docPath : Option (List String)) : Bool × σ × List Event :=
  match env.documentExists s title date docPath with
  | .ok b s2 => (b, s2, [Event.documentExists title date docPath])
  | .err _ s2 => (false, s2, [Event.documentExists title date docPath])

/-- Classification outcome of one descriptor in `filter_new_documents`. -/
inductive Outcome where
  | new
  | existing
  | skipped
deriving DecidableEq

/-- One iteration of the `filter_new_documents` loop body (orchestrator.py
lines 66-117): route the descriptor by published date, regulatory-returns
category, or DPC source system, otherwise skip it without any repository
check. -/
def filterStep (env : Env σ) (s : σ) (d : Doc) : Outcome × σ × List Event :=
  if pyTruthy d.published_date then
    let r := check_exists_in_db env s d.title d.published_date d.doc_path
    (if r.1 then Outcome.existing else Outcome.new, r.2.1, r.2.2)
  else if pyLower (getattrStr d.category) = "regulatory returns" then
    let r := check_exists_in_db env s d.title none d.doc_path
    (if r.1 then Outcome.existing else Outcome.new, r.2.1, r.2.2)
  else if pyUpper (getattrStr d.source_system) = "DPC-CIRCULAR" then
    let r := check_exists_in_db env s d.title none d.doc_path
    (if r.1 then Outcome.existing else Outcome.new, r.2.1, r.2.2)
  else
    (Outcome.skipped, s, [])

/-- Embedding of `filter_new_documents` (orchestrator.py lines 63-119): split a descriptor
list into (new, existing); a descriptor matching no routing rule is skipped
and appears in neither list. -/
def filter_new_documents (env : Env σ) (s : σ) :
    List Doc → (List Doc × List Doc) × σ × List Event
  | [] => (([], []), s, [])
  | d :: ds =>
    let step := filterStep env s d
    let rest := filter_new_documents env step.2.1 ds
    match step.1 with
    | Outcome.new => ((d :: rest.1.1, rest.1.2), rest.2.1, step.2.2 ++ rest.2.2)
    | Outcome.existing => ((rest.1.1, d :: rest.1.2), rest.2.1, step.2.2 ++ rest.2.2)
    | Outcome.skipped => ((rest.1.1, rest.1.2), rest.2.1, step.2.2 ++ rest.2.2)

/-- Descriptors the filter loop skips (neither new nor existing), in input
order, under the same collaborator-state threading as the filter itself. -/
def skippedDocs (env : Env σ) (s : σ) : List Doc → List Doc
  | [] => []
  | d :: ds =>
    let step := filterStep env s d
    match step.1 with
    | Outcome.skipped => d :: skippedDocs env step.2.1 ds
    | Outcome.new => skippedDocs env step.2.1 ds
    | Outcome.existing => skippedDocs env step.2.1 ds

/-- Python truthiness of the folder id returned by `get_folder_id`
(`if folder_id:` at orchestrator.py line 126): `None` and `0` are falsy. -/
def pyTruthyId : Option Nat → Bool
  | none => false
  | some n => n ≠ 0

/-- Loop of `_get_or_create_compliance_category` (orchestrator.py lines
123-129): walk the hierarchy titles with the running `parent_id`, reusing a
folder when `get_folder_id` answers a truthy id and inserting one otherwise.
Repository errors propagate to the caller. -/
def categoryWalk (env : Env σ) (s : σ) (parentId : Option Nat) :
    List String → PRes σ (Option Nat)
  | [] => .ok parentId s []
  | title :: rest =>
    match env.getFolderId s title parentId with
    | .err e s1 => .err e s1 [Event.getFolderId title parentId]
    | .ok fid s1 =>
      if pyTruthyId fid then
        prependTrace [Event.getFolderId title parentId] (categoryWalk env s1 fid rest)
      else
        match env.insertFolder s1 title parentId with
        | .err e s2 =>
          .err e s2 [Event.getFolderId title parentId, Event.insertFolder title parentId]
        | .ok nid s2 =>
          prependTrace [Event.getFolderId title parentId, Event.insertFolder title parentId]
            (categoryWalk env s2 (some nid) rest)

/-- Embedding of `_get_or_create_compliance_category` (orchestrator.py lines 121-131):
resolve a hierarchy path to a category id, starting from a null parent. -/
def getOrCreateComplianceCategory (env : Env σ) (s : σ) (hierarchy : List String) :
    PRes σ (Option Nat) :=
  categoryWalk env s none hierarchy

/-- Category-assignment step of `_process_single_doc` (orchestrator.py lines
145-154): resolve `doc_path` when it is a list; any raised error degrades to
a null `compliancecategory_id` instead of propagating. -/
def assignCategory (env : Env σ) (s : σ) (d : Doc) : Doc × σ × List Event :=
  if d.doc_path.isSome then
    match getOrCreateComplianceCategory env s (d.doc_path.getD []) with
    | .ok cid s1 tr => ({ d with compliancecategory_id := cid }, s1, tr)
    | .err _ s1 tr => ({ d with compliancecategory_id := none }, s1, tr)
  else ({ d with compliancecategory_id := none }, s, [])

/-- Regulatory-returns branch of `_process_single_doc` (orchestrator.py lines
157-174): insert the row without any download; both the success and the
failure of the insert end in a best-effort log write and a normal return. -/
def regulatoryReturnBranch (env : Env σ) (s : σ) (d : Doc) : PRes σ Doc :=
  match env.insertRegulation s d with
  | .ok rid s1 =>
    let l := logT env s1 (some rid) "insert" "SUCCESS"
      "Regulatory Return inserted (no document)" none
    .ok { d with id := some rid } l.1 (Event.insertRegulation d.title :: l.2)
  | .err e s1 =>
    let l := logT env s1 none "insert" "ERROR" e d.document_url
    .ok d l.1 (Event.insertRegulation d.title :: l.2)

/-- Inner SAMA PDF retrieval and conversion block (orchestrator.py lines
189-218): point the descriptor at `org_pdf_link`, download, restore the
original url, convert to HTML and sanity-check its length; every raised
error is caught here, logged as a `pdf_conversion` error, and leaves in
place whatever `html_content` had been assigned before the raise. -/
def samaPdfBlock (env : Env σ) (s : σ) (d : Doc) (orgPdfLink : String) :
    Option String × Doc × σ × List Event :=
  let d1 : Doc := { d with document_url := some orgPdfLink, file_type := some "PDF" }
  match env.download s d1 with
  | .err e s1 =>
    let l := logT env s1 none "pdf_conversion" "ERROR" e none
    (none, d1, l.1, Event.download d1.title (some orgPdfLink) :: l.2)
  | .ok filePath s1 =>
    let d2 : Doc := { d1 with document_url := d.document_url }
    match env.pdfcoPdfToHtml s1 filePath "eng+ara" with
    | .err e s2 =>
      let l := logT env s2 none "pdf_conversion" "ERROR" e none
      (none, d2, l.1,
        Event.download d1.title (some orgPdfLink) :: Event.pdfConvert filePath "eng+ara" :: l.2)
    | .ok html s2 =>
      if html = "" ∨ html.length < 50 then
        let l := logT env s2 none "pdf_conversion" "ERROR"
          "PDF.co did not return valid HTML" none
        (some html, d2, l.1,
          Event.download d1.title (some orgPdfLink) :: Event.pdfConvert filePath "eng+ara" :: l.2)
      else
        let d3 : Doc := { d2 with extra_meta := metaSet d2.extra_meta "org_pdf_html" html }
        let removed := env.osPathExists s2 filePath
        let s3 := if removed then env.osRemove s2 filePath else s2
        (some html, d3, s3,
          Event.download d1.title (some orgPdfLink) :: Event.pdfConvert filePath "eng+ara" ::
            (if removed then [Event.osRemove filePath] else []))

/-- Body of the `try` wrapping the SAMA branch (orchestrator.py lines 177-282):
determine `html_content`, run the PDF block when `org_pdf_link` is truthy,
insert the regulation row, then run the best-effort analysis sub-block when
`html_content` is truthy. -/
def samaBody (env : Env σ) (s : σ) (d : Doc) : PRes σ Doc :=
  let orgPdfLink := metaGet d.extra_meta "org_pdf_link"
  let html0 : Option String :=
    if pyTruthy orgPdfLink = false ∧ pyTruthy d.document_html then d.document_html else none
  let blk : Option String × Doc × σ × List Event :=
    if pyTruthy orgPdfLink then samaPdfBlock env s d (orgPdfLink.getD "")
    else (html0, d, s, [])
  match blk with
  | (html1, d1, s1, tr1) =>
    match env.insertRegulation s1 d1 with
    | .err e s2 => .err e s2 (tr1 ++ [Event.insertRegulation d1.title])
    | .ok rid s2 =>
      let d2 : Doc := { d1 with id := some rid }
      let l1 := logT env s2 (some rid) "insert" "SUCCESS" "SAMA document inserted" none
      if pyTruthy html1 then
        let l2 := logT env l1.1 (some rid) "llm_analysis" "STARTED"
          "Starting LLM analysis with OCR fallback" none
        match env.analyzeRegulation l2.1 (html1.getD "") rid d2.title with
        | .err e s3 =>
          let l3 := logT env s3 (some rid) "llm_analysis" "ERROR" e none
          .ok d2 l3.1 (tr1 ++ Event.insertRegulation d1.title :: (l1.2 ++ l2.2 ++
            Event.analyze rid d2.title :: l3.2))
        | .ok ar s3 =>
          match env.storeComplianceAnalysis s3 rid ar with
          | .err e s4 =>
            let l3 := logT env s4 (some rid) "llm_analysis" "ERROR" e none
            .ok d2 l3.1 (tr1 ++ Event.insertRegulation d1.title :: (l1.2 ++ l2.2 ++
              Event.analyze rid d2.title :: Event.storeAnalysis rid :: l3.2))
          | .ok _ s4 =>
            let l3 := logT env s4 (some rid) "llm_analysis" "SUCCESS"
              ("Analysis complete: " ++ toString ar.requirements.length ++ " requirements") none
            .ok d2 l3.1 (tr1 ++ Event.insertRegulation d1.title :: (l1.2 ++ l2.2 ++
              Event.analyze rid d2.title :: Event.storeAnalysis rid :: l3.2))
      else
        .ok d2 l1.1 (tr1 ++ Event.insertRegulation d1.title :: l1.2)

/-- SAMA branch of `_process_single_doc` (orchestrator.py lines 176-287): the
whole body runs under a `try`; an escaping error is caught, logged as an
insert error, and the descriptor terminates normally. -/
def samaBranch (env : Env σ) (s : σ) (d : Doc) : PRes σ Doc :=
  match samaBody env s d with
  | .ok d1 s1 tr => .ok d1 s1 tr
  | .err e s1 tr =>
    let l := logT env s1 none "insert" "ERROR" e none
    .ok d l.1 (tr ++ l.2)

/-- Normal flow for all other regulator and category combinations
(orchestrator.py lines 291-311): download, then insert; each failure is
caught, logged, and terminal for this descriptor only. -/
def normalFlow (env : Env σ) (s : σ) (d : Doc) : PRes σ Doc :=
  match env.download s d with
  | .err e s1 =>
    let l := logT env s1 none "download" "ERROR" e none
    .ok d l.1 (Event.download d.title d.document_url :: l.2)
  | .ok _ s1 =>
    match env.insertRegulation s1 d with
    | .ok rid s2 =>
      let l := logT env s2 (some rid) "insert" "SUCCESS" "Document inserted" none
      .ok { d with id := some rid } l.1
        (Event.download d.title d.document_url :: Event.insertRegulation d.title :: l.2)
    | .err e s2 =>
      let l := logT env s2 none "insert" "ERROR" e none
      .ok d l.1
        (Event.download d.title d.document_url :: Event.insertRegulation d.title :: l.2)

/-- Embedding of `_process_single_doc` (orchestrator.py lines 142-311): assign the
compliance category, then run exactly one of the three branches. -/
def processSingleDoc (env : Env σ) (s : σ) (d : Doc) (regulatorName : String) :
    PRes σ Doc :=
  let a := assignCategory env s d
  if pyLower (getattrStr a.1.category) = "regulatory returns" then
    prependTrace a.2.2 (regulatoryReturnBranch env a.2.1 a.1)
  else if pyUpper regulatorName = "SAMA" then
    prependTrace a.2.2 (samaBranch env a.2.1 a.1)
  else
    prependTrace a.2.2 (normalFlow env a.2.1 a.1)

/-- Per-document loop of `run_for_regulator` (orchestrator.py lines 56-59):
process each new descriptor in order; an exception escaping
`_process_single_doc` would abort the loop. -/
def processAll (env : Env σ) (s : σ) (regulatorName : String) : List Doc → PRes σ Unit
  | [] => .ok () s []
  | d :: ds =>
    match processSingleDoc env s d regulatorName with
    | .err e s1 tr1 => .err e s1 tr1
    | .ok _ s1 tr1 => prependTrace tr1 (processAll env s1 regulatorName ds)

/-- Skip condition of the filter loop: no truthy published date, category not
case-insensitively `regulatory returns`, source system not case-insensitively
`dpc-circular` (the final `else` of orchestrator.py lines 73-117). -/
def skipCond (d : Doc) : Bool :=
  pyTruthy d.published_date = false ∧
    pyLower (getattrStr d.category) ≠ "regulatory returns" ∧
    pyUpper (getattrStr d.source_system) ≠ "DPC-CIRCULAR"

/-- Deduplication key a descriptor is checked under by the filter: title, its
published date when truthy (else null), and its doc path. -/
def docKey (d : Doc) : String × Option String × Option (List String) :=
  (d.title, if pyTruthy d.published_date then d.published_date else none, d.doc_path)

/-- In-memory model of the category-folder table: nodes `(id, title, parent)`
plus the next id the store will assign. -/
structure FolderStore where
  nodes : List (Nat × String × Option Nat)
  nextId : Nat
deriving DecidableEq

/-- Lookup of `get_folder_id`: the id of the first node matching title and
parent, if any. -/
def FolderStore.lookup (fs : FolderStore) (title : String) (parent : Option Nat) :
    Option Nat :=
  (fs.nodes.find? (fun n => n.2.1 = title ∧ n.2.2 = parent)).map (fun n => n.1)

/-- Insertion of `insert_folder`: create a node under the next free id and
return that id. -/
def FolderStore.insertNode (fs : FolderStore) (title : String) (parent : Option Nat) :
    Nat × FolderStore :=
  (fs.nextId, ⟨(fs.nextId, title, parent) :: fs.nodes, fs.nextId + 1⟩)

/-- Well-formedness of a folder store: ids are positive (so they are truthy in
Python) and below the next id to be assigned. -/
def FolderStore.WF (fs : FolderStore) : Prop :=
  1 ≤ fs.nextId ∧ ∀ n ∈ fs.nodes, 1 ≤ n.1 ∧ n.1 < fs.nextId

instance (fs : FolderStore) : Decidable fs.WF := by
  unfold FolderStore.WF; infer_instance

/-- Environment whose repository is a consistent get-or-create folder store;
all other collaborators answer trivially and never raise. -/
def folderEnv : Env FolderStore where
  documentExists := fun s _ _ _ => .ok false s
  getFolderId := fun s t p => .ok (s.lookup t p) s
  insertFolder := fun s t p =>
    match s.insertNode t p with
    | (i, s2) => .ok i s2
  insertRegulation := fun s _ => .ok 1 s
  storeComplianceAnalysis := fun s _ _ => .ok () s
  logProcessing := fun s _ _ _ _ _ => .ok () s
  download := fun s _ => .ok "file.pdf" s
  pdfcoPdfToHtml := fun s _ _ => .ok "" s
  analyzeRegulation := fun s _ _ _ => .ok ⟨[]⟩ s
  osPathExists := fun _ _ => false
  osRemove := fun s _ => s

/-- Stateless environment whose existence oracle is the given pure predicate
and whose other collaborators answer trivially and never raise. -/
def unitEnv (f : String → Option String → Option (List String) → Bool) : Env Unit where
  documentExists := fun s t dt p => .ok (f t dt p) s
  getFolderId := fun s _ _ => .ok none s
  insertFolder := fun s _ _ => .ok 1 s
  insertRegulation := fun s _ => .ok 1 s
  storeComplianceAnalysis := fun s _ _ => .ok () s
  logProcessing := fun s _ _ _ _ _ => .ok () s
  download := fun s _ => .ok "file.pdf" s
  pdfcoPdfToHtml := fun s _ _ => .ok "" s
  analyzeRegulation := fun s _ _ _ => .ok ⟨[]⟩ s
  osPathExists := fun _ _ => false
  osRemove := fun s _ => s

/-- Environment of an empty persistence store: every existence check answers
false. -/
def emptyStoreEnv : Env Unit := unitEnv (fun _ _ _ => false)

/-- New-documents list of a first pipeline run over `docs`, starting from an
empty persistence store. -/
def firstRunNew (docs : List Doc) : List Doc :=
  (filter_new_documents emptyStoreEnv () docs).1.1

/-- Environment of the store after that first run: a key exists exactly when
some descriptor processed as new in the first run carries that key. -/
def secondRunEnv (docs : List Doc) : Env Unit :=
  unitEnv (fun t dt p => decide ((t, dt, p) ∈ (firstRunNew docs).map docKey))

/-- Environment whose repository log write always raises. -/
def failLogEnv : Env Unit :=
  { unitEnv (fun _ _ _ => false) with
      logProcessing := fun s _ _ _ _ _ => .err "db down" s }

/-- Environment whose existence check always raises. -/
def failExistsEnv : Env Unit :=
  { unitEnv (fun _ _ _ => false) with
      documentExists := fun s _ _ _ => .err "connection reset" s }

/-- Environment whose folder lookup always raises, so that category
resolution fails on any non-empty path. -/
def failFolderEnv : Env Unit :=
  { unitEnv (fun _ _ _ => false) with
      getFolderId := fun s _ _ => .err "folder table locked" s }

lemma prependTrace_isOk (tr : List Event) (r : PRes σ α) :
    (prependTrace tr r).isOk = r.isOk := by
  cases r <;> rfl

lemma regulatoryReturnBranch_isOk (env : Env σ) (s : σ) (d : Doc) :
    (regulatoryReturnBranch env s d).isOk = true := by
  unfold regulatoryReturnBranch
  cases env.insertRegulation s d <;> rfl

lemma samaBranch_isOk (env : Env σ) (s : σ) (d : Doc) :
    (samaBranch env s d).isOk = true := by
  unfold samaBranch
  cases samaBody env s d <;> rfl

lemma normalFlow_isOk (env : Env σ) (s : σ) (d : Doc) :
    (normalFlow env s d).isOk = true := by
  unfold normalFlow
  rcases env.download s d with ⟨fp, s1⟩ | ⟨e, s1⟩
  · dsimp only
    rcases env.insertRegulation s1 d with ⟨rid, s2⟩ | ⟨e2, s2⟩ <;> rfl
  · rfl

lemma processSingleDoc_isOk (env : Env σ) (s : σ) (d : Doc) (regName : String) :
    (processSingleDoc env s d regName).isOk = true := by
  unfold processSingleDoc
  dsimp only
  split
  · rw [prependTrace_isOk, regulatoryReturnBranch_isOk]
  · split
    · rw [prependTrace_isOk, samaBranch_isOk]
    · rw [prependTrace_isOk, normalFlow_isOk]

/-- C3: under the data-model preconditions enforced by the embedding types,
`_process_single_doc` returns normally whatever its collaborators do — every
collaborator error is caught inside — and therefore the per-document loop of
`run_for_regulator` completes every descriptor. -/
theorem c3_process_never_raises (env : Env σ) (s : σ) (d : Doc) (regName : String) :
    (processSingleDoc env s d regName).isOk = true ∧
      ∀ docs : List Doc, (processAll env s regName docs).isOk = true := by
  refine ⟨processSingleDoc_isOk env s d regName, ?_⟩
  intro docs
  induction docs generalizing s with
  | nil => rfl
  | cons d0 ds ih =>
    unfold processAll
    rcases h : processSingleDoc env s d0 regName with ⟨a, s1, tr1⟩ | ⟨e, s1, tr1⟩
    · dsimp only
      rw [prependTrace_isOk]
      exact ih s1
    · have hok := processSingleDoc_isOk env s d0 regName
      rw [h] at hok
      exact absurd hok (by simp [PRes.isOk])

/-- C9: when the underlying repository log write raises, `Orchestrator.log`
swallows the exception and returns normally, having recorded the attempted
write. -/
theorem c9_log_swallows_errors (env : Env σ) (s : σ) (regId : Option Nat)
    (step status message : String) (docUrl : Option String) (e : Err) (s2 : σ)
    (h : env.logProcessing s regId step status message docUrl = .err e s2) :
    log env s regId step status message docUrl =
      .ok () s2 [Event.logWrite regId step status message docUrl] := by
  unfold log
  rw [h]

/-- Witness for C9: a concrete store whose log write always raises. -/
theorem c9_witness :
    log failLogEnv () none "insert" "ERROR" "boom" none =
      .ok () () [Event.logWrite none "insert" "ERROR" "boom" none] :=
  c9_log_swallows_errors failLogEnv () none "insert" "ERROR" "boom" none "db down" () rfl

/-- C10: when the repository existence check raises, `check_exists_in_db`
answers false, so `filter_new_documents` classifies the descriptor as new
even though a matching row may exist in the store. -/
theorem c10_exists_error_classified_new (env : Env σ) (s : σ) (d : Doc)
    (e : Err) (s2 : σ)
    (hdate : pyTruthy d.published_date = true)
    (herr : env.documentExists s d.title d.published_date d.doc_path = .err e s2) :
    check_exists_in_db env s d.title d.published_date d.doc_path =
        (false, s2, [Event.documentExists d.title d.published_date d.doc_path]) ∧
      filterStep env s d =
        (Outcome.new, s2, [Event.documentExists d.title d.published_date d.doc_path]) ∧
      ∀ rest, (filter_new_documents env s (d :: rest)).1.1 =
        d :: (filter_new_documents env s2 rest).1.1 := by
  have hc : check_exists_in_db env s d.title d.published_date d.doc_path =
      (false, s2, [Event.documentExists d.title d.published_date d.doc_path]) := by
    unfold check_exists_in_db
    rw [herr]
  have hstep : filterStep env s d =
      (Outcome.new, s2, [Event.documentExists d.title d.published_date d.doc_path]) := by
    unfold filterStep
    rw [hdate]
    simp [hc]
  refine ⟨hc, hstep, ?_⟩
  intro rest
  conv_lhs => rw [filter_new_documents]
  rw [hstep]

/-- Witness for C10: with an always-raising existence check, a dated
descriptor lands in the new list. -/
theorem c10_witness :
    check_exists_in_db failExistsEnv ()
        "Circular 3 of 2025" (some "01/03/2025") (some ["SBP", "Circular"]) =
      (false, (), [Event.documentExists "Circular 3 of 2025" (some "01/03/2025")
        (some ["SBP", "Circular"])]) ∧
    filterStep failExistsEnv ()
        { title := "Circular 3 of 2025", published_date := some "01/03/2025",
          category := some "Circular", source_system := some "SBP-CIRCULAR",
          regulator := some "SBP", doc_path := some ["SBP", "Circular"],
          document_url := some "u", file_type := none, extra_meta := [],
          document_html := none, compliancecategory_id := none, id := none } =
      (Outcome.new, (), [Event.documentExists "Circular 3 of 2025" (some "01/03/2025")
        (some ["SBP", "Circular"])]) ∧
    ∀ rest, (filter_new_documents failExistsEnv ()
        ({ title := "Circular 3 of 2025", published_date := some "01/03/2025",
           category := some "Circular", source_system := some "SBP-CIRCULAR",
           regulator := some "SBP", doc_path := some ["SBP", "Circular"],
           document_url := some "u", file_type := none, extra_meta := [],
           document_html := none, compliancecategory_id := none, id := none } :: rest)).1.1 =
      { title := "Circular 3 of 2025", published_date := some "01/03/2025",
        category := some "Circular", source_system := some "SBP-CIRCULAR",
        regulator := some "SBP", doc_path := some ["SBP", "Circular"],
        document_url := some "u", file_type := none, extra_meta := [],
        document_html := none, compliancecategory_id := none, id := none } ::
        (filter_new_documents failExistsEnv () rest).1.1 :=
  c10_exists_error_classified_new failExistsEnv ()
    { title := "Circular 3 of 2025", published_date := some "01/03/2025",
      category := some "Circular", source_system := some "SBP-CIRCULAR",
      regulator := some "SBP", doc_path := some ["SBP", "Circular"],
      document_url := some "u", file_type := none, extra_meta := [],
      document_html := none, compliancecategory_id := none, id := none }
    "connection reset" () (by decide) rfl

/-- C8: a descriptor with no truthy published date, a category other than
`regulatory returns` (case-insensitively) and a source system other than
`dpc-circular` (case-insensitively) is skipped: no existence check is made
and the filter output over it is exactly the output over the remaining
descriptors. -/
theorem c8_undated_descriptor_skipped (env : Env σ) (s : σ) (d : Doc)
    (h1 : pyTruthy d.published_date = false)
    (h2 : pyLower (getattrStr d.category) ≠ "regulatory returns")
    (h3 : pyUpper (getattrStr d.source_system) ≠ "DPC-CIRCULAR") :
    filterStep env s d = (Outcome.skipped, s, []) ∧
      ∀ rest, filter_new_documents env s (d :: rest) = filter_new_documents env s rest := by
  have hstep : filterStep env s d = (Outcome.skipped, s, []) := by
    unfold filterStep
    rw [h1]
    simp [h2, h3]
  refine ⟨hstep, ?_⟩
  intro rest
  conv_lhs => rw [filter_new_documents]
  rw [hstep]
  simp

/-- Witness for C8: an SBP regulatory-return descriptor as actually produced
by the crawler (singular category, no published date) is skipped. -/
theorem c8_witness :
    filterStep (unitEnv (fun _ _ _ => false)) ()
        { title := "Daily Statement", published_date := none,
          category := some "Regulatory Return",
          source_system := some "SBP-REGULATORY RETURN",
          regulator := some "SBP", doc_path := none, document_url := some "v",
          file_type := none, extra_meta := [], document_html := none,
          compliancecategory_id := none, id := none } =
      (Outcome.skipped, (), []) ∧
    ∀ rest, filter_new_documents (unitEnv (fun _ _ _ => false)) ()
        ({ title := "Daily Statement", published_date := none,
           category := some "Regulatory Return",
           source_system := some "SBP-REGULATORY RETURN",
           regulator := some "SBP", doc_path := none, document_url := some "v",
           file_type := none, extra_meta := [], document_html := none,
           compliancecategory_id := none, id := none } :: rest) =
      filter_new_documents (unitEnv (fun _ _ _ => false)) () rest :=
  c8_undated_descriptor_skipped (unitEnv (fun _ _ _ => false)) ()
    { title := "Daily Statement", published_date := none,
      category := some "Regulatory Return",
      source_system := some "SBP-REGULATORY RETURN",
      regulator := some "SBP", doc_path := none, document_url := some "v",
      file_type := none, extra_meta := [], document_html := none,
      compliancecategory_id := none, id := none }
    (by decide) (by decide) (by decide)

/-- C7: when category-hierarchy resolution raises, `_process_single_doc`
degrades the descriptor to a null `compliancecategory_id` and still runs the
branch selected for it (the descriptor is neither dropped nor the run
aborted). -/
theorem c7_category_failure_degrades (env : Env σ) (s : σ) (d : Doc) (path : List String)
    (hpath : d.doc_path = some path)
    (herr : (getOrCreateComplianceCategory env s path).isErr = true) :
    ∃ s1 tr1,
      assignCategory env s d = ({ d with compliancecategory_id := none }, s1, tr1) ∧
      ∀ regName, processSingleDoc env s d regName =
        prependTrace tr1
          (if pyLower (getattrStr d.category) = "regulatory returns" then
            regulatoryReturnBranch env s1 { d with compliancecategory_id := none }
          else if pyUpper regName = "SAMA" then
            samaBranch env s1 { d with compliancecategory_id := none }
          else normalFlow env s1 { d with compliancecategory_id := none }) := by
  rcases hg : getOrCreateComplianceCategory env s path with ⟨v, s1, tr⟩ | ⟨e, s1, tr⟩
  · rw [hg] at herr
    exact absurd herr (by simp [PRes.isErr])
  · have hassign : assignCategory env s d =
        ({ d with compliancecategory_id := none }, s1, tr) := by
      unfold assignCategory
      rw [hpath]
      simp [hg]
    refine ⟨s1, tr, hassign, ?_⟩
    intro regName
    unfold processSingleDoc
    rw [hassign]
    by_cases h1 : pyLower (getattrStr d.category) = "regulatory returns"
    · simp [h1]
    · by_cases h2 : pyUpper regName = "SAMA"
      · simp [h1, h2]
      · simp [h1, h2]

/-- Witness for C7: a concrete store whose folder lookup always raises. -/
theorem c7_witness :
    ∃ s1 tr1,
      assignCategory failFolderEnv ()
          { title := "Guideline 9", published_date := some "02/02/2024",
            category := some "Guideline", source_system := some "SECP",
            regulator := some "SECP", doc_path := some ["SECP", "Guidelines"],
            document_url := some "w", file_type := none, extra_meta := [],
            document_html := none, compliancecategory_id := none, id := none } =
        ({ title := "Guideline 9", published_date := some "02/02/2024",
           category := some "Guideline", source_system := some "SECP",
           regulator := some "SECP", doc_path := some ["SECP", "Guidelines"],
           document_url := some "w", file_type := none, extra_meta := [],
           document_html := none, compliancecategory_id := none, id := none }, s1, tr1) ∧
      ∀ regName, processSingleDoc failFolderEnv ()
          { title := "Guideline 9", published_date := some "02/02/2024",
            category := some "Guideline", source_system := some "SECP",
            regulator := some "SECP", doc_path := some ["SECP", "Guidelines"],
            document_url := some "w", file_type := none, extra_meta := [],
            document_html := none, compliancecategory_id := none, id := none } regName =
        prependTrace tr1
          (if pyLower (getattrStr (some "Guideline")) = "regulatory returns" then
            regulatoryReturnBranch failFolderEnv s1
              { title := "Guideline 9", published_date := some "02/02/2024",
                category := some "Guideline", source_system := some "SECP",
                regulator := some "SECP", doc_path := some ["SECP", "Guidelines"],
                document_url := some "w", file_type := none, extra_meta := [],
                document_html := none, compliancecategory_id := none, id := none }
          else if pyUpper regName = "SAMA" then
            samaBranch failFolderEnv s1
              { title := "Guideline 9", published_date := some "02/02/2024",
                category := some "Guideline", source_system := some "SECP",
                regulator := some "SECP", doc_path := some ["SECP", "Guidelines"],
                document_url := some "w", file_type := none, extra_meta := [],
                document_html := none, compliancecategory_id := none, id := none }
          else normalFlow failFolderEnv s1
              { title := "Guideline 9", published_date := some "02/02/2024",
                category := some "Guideline", source_system := some "SECP",
                regulator := some "SECP", doc_path := some ["SECP", "Guidelines"],
                document_url := some "w", file_type := none, extra_meta := [],
                document_html := none, compliancecategory_id := none, id := none }) :=
  c7_category_failure_degrades failFolderEnv ()
    { title := "Guideline 9", published_date := some "02/02/2024",
      category := some "Guideline", source_system := some "SECP",
      regulator := some "SECP", doc_path := some ["SECP", "Guidelines"],
      document_url := some "w", file_type := none, extra_meta := [],
      document_html := none, compliancecategory_id := none, id := none }
    ["SECP", "Guidelines"] rfl (by decide)

/-- Environment for the C1 failing input: the download succeeds, the PDF
conversion succeeds but returns a 10-character string, and every other
collaborator succeeds. -/
def samaShortHtmlEnv : Env Unit :=
  { unitEnv (fun _ _ _ => false) with
      pdfcoPdfToHtml := fun s _ _ => .ok "0123456789" s
      analyzeRegulation := fun s _ _ _ => .ok ⟨["req1"]⟩ s }

/-- SAMA descriptor of the C1 failing input, carrying an `org_pdf_link`. -/
def samaShortHtmlDoc : Doc :=
  { title := "SAMA Circular 1", published_date := some "01/01/2025",
    category := some "Circular", source_system := some "SAMA-CIRCULAR",
    regulator := some "SAMA", doc_path := none,
    document_url := some "https://sama.example/c1", file_type := none,
    extra_meta := [("org_pdf_link", "https://sama.example/c1.pdf")],
    document_html := none, compliancecategory_id := none, id := none }

/-- C1 at the failing input: the conversion call returns a 10-character
string, which the code flags as invalid and logs as a conversion failure;
the regulation row is inserted as the claim says, but since `html_content`
keeps the invalid string, the Analysis Service IS invoked and the analysis
IS stored, contradicting the second half of the claim. -/
theorem c1_short_conversion_still_analyzed :
    (processSingleDoc samaShortHtmlEnv () samaShortHtmlDoc "SAMA").isOk = true ∧
      Event.insertRegulation "SAMA Circular 1" ∈
        (processSingleDoc samaShortHtmlEnv () samaShortHtmlDoc "SAMA").trace ∧
      Event.logWrite none "pdf_conversion" "ERROR" "PDF.co did not return valid HTML" none ∈
        (processSingleDoc samaShortHtmlEnv () samaShortHtmlDoc "SAMA").trace ∧
      Event.analyze 1 "SAMA Circular 1" ∈
        (processSingleDoc samaShortHtmlEnv () samaShortHtmlDoc "SAMA").trace ∧
      Event.storeAnalysis 1 ∈
        (processSingleDoc samaShortHtmlEnv () samaShortHtmlDoc "SAMA").trace := by
  decide

/-- Descriptor with category exactly `Regulatory Return`, the value the SBP
crawler attaches to regulatory returns, here with a published date so that
the filter would route it to processing. -/
def singularReturnDoc : Doc :=
  { title := "Statement of Affairs", published_date := some "15/03/2024",
    category := some "Regulatory Return",
    source_system := some "SBP-REGULATORY RETURN", regulator := some "SBP",
    doc_path := none, document_url := some "https://sbp.example/soa.xls",
    file_type := none, extra_meta := [], document_html := none,
    compliancecategory_id := none, id := none }

/-- C2 at the failing input: the category `Regulatory Return` lower-cases to
`regulatory return`, which the code compares against the plural
`regulatory returns`, so the short-circuit branch is bypassed and the
Retrieval Service is invoked, contradicting the claim. -/
theorem c2_singular_category_still_downloads :
    pyLower (getattrStr singularReturnDoc.category) ≠ "regulatory returns" ∧
      Event.download "Statement of Affairs" (some "https://sbp.example/soa.xls") ∈
        (processSingleDoc (unitEnv (fun _ _ _ => false)) () singularReturnDoc "SBP").trace := by
  decide

lemma filter_skipped_perm (env : Env σ) (docs : List Doc) : ∀ s : σ,
    ((filter_new_documents env s docs).1.1 ++ (filter_new_documents env s docs).1.2 ++
      skippedDocs env s docs).Perm docs := by
  induction docs with
  | nil => intro s; simp [filter_new_documents, skippedDocs]
  | cons d ds ih =>
    intro s
    rcases hstep : filterStep env s d with ⟨o, s1, tr1⟩
    have hrec := ih s1
    rw [List.append_assoc] at hrec
    cases o
    · simp only [filter_new_documents, skippedDocs, hstep, List.append_assoc]
      exact hrec.cons d
    · simp only [filter_new_documents, skippedDocs, hstep, List.append_assoc]
      show ((filter_new_documents env s1 ds).1.1 ++
        (d :: ((filter_new_documents env s1 ds).1.2 ++ skippedDocs env s1 ds))).Perm (d :: ds)
      exact List.perm_middle.trans (hrec.cons d)
    · simp only [filter_new_documents, skippedDocs, hstep, List.append_assoc]
      show ((filter_new_documents env s1 ds).1.1 ++
        ((filter_new_documents env s1 ds).1.2 ++ (d :: skippedDocs env s1 ds))).Perm (d :: ds)
      refine (List.Perm.append_left _ List.perm_middle).trans ?_
      exact List.perm_middle.trans (hrec.cons d)

/-- C4: the filter partitions its input: new, existing and skipped descriptors
together are a permutation of the input (so the three counts sum to the input
length), and on duplicate-free input no descriptor lands in both returned
lists or twice in one. -/
theorem c4_filter_partitions (env : Env σ) (s : σ) (docs : List Doc)
    (hnd : docs.Nodup) :
    ((filter_new_documents env s docs).1.1 ++ (filter_new_documents env s docs).1.2 ++
        skippedDocs env s docs).Perm docs ∧
      (filter_new_documents env s docs).1.1.length +
          (filter_new_documents env s docs).1.2.length +
          (skippedDocs env s docs).length = docs.length ∧
      (filter_new_documents env s docs).1.1.Nodup ∧
      (filter_new_documents env s docs).1.2.Nodup ∧
      ∀ d ∈ (filter_new_documents env s docs).1.1,
        d ∉ (filter_new_documents env s docs).1.2 := by
  have hperm := filter_skipped_perm env docs s
  refine ⟨hperm, ?_, ?_⟩
  · have hl := hperm.length_eq
    simp only [List.length_append] at hl
    omega
  · have hnodup := hperm.nodup_iff.mpr hnd
    rw [List.append_assoc] at hnodup
    obtain ⟨hA, hBC, hdisj⟩ := List.nodup_append.mp hnodup
    obtain ⟨hB, hC, hd2⟩ := List.nodup_append.mp hBC
    exact ⟨hA, hB, fun d hdA hdB => hdisj hdA (List.mem_append_left _ hdB)⟩

/-- Witness for C4 at a two-descriptor input over a trivial store. -/
theorem c4_witness :
    ((filter_new_documents (unitEnv (fun _ _ _ => false)) ()
        [{ title := "A", published_date := some "01/01/2024", category := some "Circular",
           source_system := some "SBP", regulator := some "SBP", doc_path := none,
           document_url := none, file_type := none, extra_meta := [], document_html := none,
           compliancecategory_id := none, id := none },
         { title := "B", published_date := none, category := some "Notification",
           source_system := some "SBP", regulator := some "SBP", doc_path := none,
           document_url := none, file_type := none, extra_meta := [], document_html := none,
           compliancecategory_id := none, id := none }]).1.1 ++
      (filter_new_documents (unitEnv (fun _ _ _ => false)) ()
        [{ title := "A", published_date := some "01/01/2024", category := some "Circular",
           source_system := some "SBP", regulator := some "SBP", doc_path := none,
           document_url := none, file_type := none, extra_meta := [], document_html := none,
           compliancecategory_id := none, id := none },
         { title := "B", published_date := none, category := some "Notification",
           source_system := some "SBP", regulator := some "SBP", doc_path := none,
           document_url := none, file_type := none, extra_meta := [], document_html := none,
           compliancecategory_id := none, id := none }]).1.2 ++
      skippedDocs (unitEnv (fun _ _ _ => false)) ()
        [{ title := "A", published_date := some "01/01/2024", category := some "Circular",
           source_system := some "SBP", regulator := some "SBP", doc_path := none,
           document_url := none, file_type := none, extra_meta := [], document_html := none,
           compliancecategory_id := none, id := none },
         { title := "B", published_date := none, category := some "Notification",
           source_system := some "SBP", regulator := some "SBP", doc_path := none,
           document_url := none, file_type := none, extra_meta := [], document_html := none,
           compliancecategory_id := none, id := none }]).Perm
      [{ title := "A", published_date := some "01/01/2024", category := some "Circular",
         source_system := some "SBP", regulator := some "SBP", doc_path := none,
         document_url := none, file_type := none, extra_meta := [], document_html := none,
         compliancecategory_id := none, id := none },
       { title := "B", published_date := none, category := some "Notification",
         source_system := some "SBP", regulator := some "SBP", doc_path := none,
         document_url := none, file_type := none, extra_meta := [], document_html := none,
         compliancecategory_id := none, id := none }] ∧
    (filter_new_documents (unitEnv (fun _ _ _ => false)) ()
        [{ title := "A", published_date := some "01/01/2024", category := some "Circular",
           source_system := some "SBP", regulator := some "SBP", doc_path := none,
           document_url := none, file_type := none, extra_meta := [], document_html := none,
           compliancecategory_id := none, id := none },
         { title := "B", published_date := none, category := some "Notification",
           source_system := some "SBP", regulator := some "SBP", doc_path := none,
           document_url := none, file_type := none, extra_meta := [], document_html := none,
           compliancecategory_id := none, id := none }]).1.1.length +
        (filter_new_documents (unitEnv (fun _ _ _ => false)) ()
        [{ title := "A", published_date := some "01/01/2024", category := some "Circular",
           source_system := some "SBP", regulator := some "SBP", doc_path := none,
           document_url := none, file_type := none, extra_meta := [], document_html := none,
           compliancecategory_id := none, id := none },
         { title := "B", published_date := none, category := some "Notification",
           source_system := some "SBP", regulator := some "SBP", doc_path := none,
           document_url := none, file_type := none, extra_meta := [], document_html := none,
           compliancecategory_id := none, id := none }]).1.2.length +
        (skippedDocs (unitEnv (fun _ _ _ => false)) ()
        [{ title := "A", published_date := some "01/01/2024", category := some "Circular",
           source_system := some "SBP", regulator := some "SBP", doc_path := none,
           document_url := none, file_type := none, extra_meta := [], document_html := none,
           compliancecategory_id := none, id := none },
         { title := "B", published_date := none, category := some "Notification",
           source_system := some "SBP", regulator := some "SBP", doc_path := none,
           document_url := none, file_type := none, extra_meta := [], document_html := none,
           compliancecategory_id := none, id := none }]).length = 2 ∧
    (filter_new_documents (unitEnv (fun _ _ _ => false)) ()
        [{ title := "A", published_date := some "01/01/2024", category := some "Circular",
           source_system := some "SBP", regulator := some "SBP", doc_path := none,
           document_url := none, file_type := none, extra_meta := [], document_html := none,
           compliancecategory_id := none, id := none },
         { title := "B", published_date := none, category := some "Notification",
           source_system := some "SBP", regulator := some "SBP", doc_path := none,
           document_url := none, file_type := none, extra_meta := [], document_html := none,
           compliancecategory_id := none, id := none }]).1.1.Nodup ∧
    (filter_new_documents (unitEnv (fun _ _ _ => false)) ()
        [{ title := "A", published_date := some "01/01/2024", category := some "Circular",
           source_system := some "SBP", regulator := some "SBP", doc_path := none,
           document_url := none, file_type := none, extra_meta := [], document_html := none,
           compliancecategory_id := none, id := none },
         { title := "B", published_date := none, category := some "Notification",
           source_system := some "SBP", regulator := some "SBP", doc_path := none,
           document_url := none, file_type := none, extra_meta := [], document_html := none,
           compliancecategory_id := none, id := none }]).1.2.Nodup ∧
    ∀ d ∈ (filter_new_documents (unitEnv (fun _ _ _ => false)) ()
        [{ title := "A", published_date := some "01/01/2024", category := some "Circular",
           source_system := some "SBP", regulator := some "SBP", doc_path := none,
           document_url := none, file_type := none, extra_meta := [], document_html := none,
           compliancecategory_id := none, id := none },
         { title := "B", published_date := none, category := some "Notification",
           source_system := some "SBP", regulator := some "SBP", doc_path := none,
           document_url := none, file_type := none, extra_meta := [], document_html := none,
           compliancecategory_id := none, id := none }]).1.1,
      d ∉ (filter_new_documents (unitEnv (fun _ _ _ => false)) ()
        [{ title := "A", published_date := some "01/01/2024", category := some "Circular",
           source_system := some "SBP", regulator := some "SBP", doc_path := none,
           document_url := none, file_type := none, extra_meta := [], document_html := none,
           compliancecategory_id := none, id := none },
         { title := "B", published_date := none, category := some "Notification",
           source_system := some "SBP", regulator := some "SBP", doc_path := none,
           document_url := none, file_type := none, extra_meta := [], document_html := none,
           compliancecategory_id := none, id := none }]).1.2 :=
  c4_filter_partitions (unitEnv (fun _ _ _ => false)) ()
    [{ title := "A", published_date := some "01/01/2024", category := some "Circular",
       source_system := some "SBP", regulator := some "SBP", doc_path := none,
       document_url := none, file_type := none, extra_meta := [], document_html := none,
       compliancecategory_id := none, id := none },
     { title := "B", published_date := none, category := some "Notification",
       source_system := some "SBP", regulator := some "SBP", doc_path := none,
       document_url := none, file_type := none, extra_meta := [], document_html := none,
       compliancecategory_id := none, id := none }] (by decide)

lemma filterStep_unitEnv (f : String → Option String → Option (List String) → Bool)
    (d : Doc) :
    filterStep (unitEnv f) () d =
      if skipCond d then (Outcome.skipped, (), ([] : List Event))
      else
        ((if f d.title (if pyTruthy d.published_date then d.published_date else none) d.doc_path
            then Outcome.existing else Outcome.new), (),
          [Event.documentExists d.title
            (if pyTruthy d.published_date then d.published_date else none) d.doc_path]) := by
  by_cases h1 : pyTruthy d.published_date = true
  · simp [filterStep, check_exists_in_db, unitEnv, skipCond, h1]
  · by_cases h2 : pyLower (getattrStr d.category) = "regulatory returns"
    · simp [filterStep, check_exists_in_db, unitEnv, skipCond, h1, h2]
    · by_cases h3 : pyUpper (getattrStr d.source_system) = "DPC-CIRCULAR"
      · simp [filterStep, check_exists_in_db, unitEnv, skipCond, h1, h2, h3]
      · simp [filterStep, check_exists_in_db, unitEnv, skipCond, h1, h2, h3]

lemma firstRunNew_eq (docs : List Doc) :
    firstRunNew docs = docs.filter (fun d => !skipCond d) := by
  unfold firstRunNew emptyStoreEnv
  induction docs with
  | nil => rfl
  | cons d ds ih =>
    have hstep := filterStep_unitEnv (fun _ _ _ => false) d
    by_cases hsk : skipCond d = true
    · rw [if_pos hsk] at hstep
      simp only [filter_new_documents, hstep]
      simpa [List.filter_cons, hsk] using ih
    · rw [if_neg hsk] at hstep
      simp only [Bool.not_eq_true] at hsk
      simp only [filter_new_documents, hstep]
      simpa [List.filter_cons, hsk] using ih

lemma secondPass_new_nil (f : String → Option String → Option (List String) → Bool)
    (docs : List Doc)
    (hf : ∀ d ∈ docs, skipCond d = false →
      f d.title (if pyTruthy d.published_date then d.published_date else none) d.doc_path =
        true) :
    (filter_new_documents (unitEnv f) () docs).1.1 = [] := by
  induction docs with
  | nil => rfl
  | cons d ds ih =>
    have hstep := filterStep_unitEnv f d
    by_cases hsk : skipCond d = true
    · rw [if_pos hsk] at hstep
      simp only [filter_new_documents, hstep]
      exact ih (fun d2 h2 => hf d2 (List.mem_cons_of_mem d h2))
    · rw [if_neg hsk] at hstep
      simp only [Bool.not_eq_true] at hsk
      rw [hf d (List.mem_cons_self d ds) hsk] at hstep
      simp only [filter_new_documents, hstep]
      simpa using ih (fun d2 h2 => hf d2 (List.mem_cons_of_mem d h2))

/-- C5: with the persistence store answering existence exactly for the keys of
the documents a first run (from an empty store) processed as new, a second
run of the filter over the same descriptor list yields no new documents. -/
theorem c5_second_run_yields_no_new (docs : List Doc) :
    (filter_new_documents (secondRunEnv docs) () docs).1.1 = [] := by
  unfold secondRunEnv
  apply secondPass_new_nil
  intro d hd hsk
  have hmem : d ∈ firstRunNew docs := by
    rw [firstRunNew_eq]
    exact List.mem_filter.mpr ⟨hd, by simp [hsk]⟩
  rw [decide_eq_true_eq]
  exact List.mem_map_of_mem docKey hmem

/-- Store extension: every folder the old store resolves is resolved to the
same id by the new store. -/
def FolderStore.Ext (fs fs2 : FolderStore) : Prop :=
  ∀ t p i, fs.lookup t p = some i → fs2.lookup t p = some i

/-- All lookups along the path succeed with truthy ids and lead to the given
category id. -/
def FoundWalk (fs : FolderStore) : Option Nat → List String → Option Nat → Prop
  | parent, [], cid => cid = parent
  | parent, t :: rest, cid =>
    ∃ i, fs.lookup t parent = some i ∧ 1 ≤ i ∧ FoundWalk fs (some i) rest cid

lemma FolderStore.lookup_pos {fs : FolderStore} (hwf : fs.WF) {t : String}
    {p : Option Nat} {i : Nat} (h : fs.lookup t p = some i) : 1 ≤ i := by
  unfold FolderStore.lookup at h
  cases hfind : fs.nodes.find? (fun n => n.2.1 = t ∧ n.2.2 = p) with
  | none =>
    rw [hfind] at h
    exact absurd h (by simp)
  | some n =>
    rw [hfind] at h
    simp at h
    have hmem := List.mem_of_find?_eq_some hfind
    have := hwf.2 n hmem
    omega

lemma FolderStore.insert_lookup {fs : FolderStore} (t : String) (p : Option Nat) :
    ((fs.insertNode t p).2).lookup t p = some fs.nextId := by
  simp [FolderStore.lookup, FolderStore.insertNode, List.find?]

lemma FolderStore.insert_wf {fs : FolderStore} (hwf : fs.WF) (t : String)
    (p : Option Nat) : ((fs.insertNode t p).2).WF := by
  obtain ⟨h1, h2⟩ := hwf
  refine ⟨Nat.le_succ_of_le h1, ?_⟩
  intro n hn
  rcases List.mem_cons.mp hn with h | h
  · subst h
    exact ⟨h1, Nat.lt_succ_self _⟩
  · have h3 := h2 n h
    exact ⟨h3.1, Nat.lt_succ_of_lt h3.2⟩

lemma FolderStore.insert_ext {fs : FolderStore} (t : String) (p : Option Nat)
    (hnone : fs.lookup t p = none) : fs.Ext (fs.insertNode t p).2 := by
  intro t2 p2 i h
  by_cases heq : t = t2 ∧ p = p2
  · exfalso
    rcases heq with ⟨rfl, rfl⟩
    rw [hnone] at h
    exact Option.noConfusion h
  · unfold FolderStore.lookup at h ⊢
    unfold FolderStore.insertNode
    dsimp only
    rw [List.find?_cons_of_neg]
    · exact h
    · simp only [decide_eq_true_eq]
      intro hc
      exact heq ⟨hc.1, hc.2⟩

lemma FolderStore.Ext.trans {fs1 fs2 fs3 : FolderStore} (h1 : fs1.Ext fs2)
    (h2 : fs2.Ext fs3) : fs1.Ext fs3 :=
  fun t p i h => h2 t p i (h1 t p i h)

lemma FoundWalk.mono {fs fs2 : FolderStore} (hext : fs.Ext fs2) :
    ∀ (path : List String) (parent cid : Option Nat),
      FoundWalk fs parent path cid → FoundWalk fs2 parent path cid := by
  intro path
  induction path with
  | nil => intro parent cid h; exact h
  | cons t rest ih =>
    intro parent cid h
    obtain ⟨i, hl, hi, hrest⟩ := h
    exact ⟨i, hext t parent i hl, hi, ih (some i) cid hrest⟩

lemma categoryWalk_spec (path : List String) : ∀ (fs : FolderStore) (parent : Option Nat),
    fs.WF → ∃ cid fs1 tr,
      categoryWalk folderEnv fs parent path = .ok cid fs1 tr ∧
      fs1.WF ∧ fs.Ext fs1 ∧ FoundWalk fs1 parent path cid := by
  induction path with
  | nil =>
    intro fs parent hwf
    exact ⟨parent, fs, [], rfl, hwf, fun t p i h => h, rfl⟩
  | cons t rest ih =>
    intro fs parent hwf
    unfold categoryWalk
    cases hl : fs.lookup t parent with
    | some i =>
      have hi : 1 ≤ i := FolderStore.lookup_pos hwf hl
      have hg : folderEnv.getFolderId fs t parent = .ok (some i) fs := by
        simp [folderEnv, hl]
      rw [hg]
      have htruthy : pyTruthyId (some i) = true := by
        simp [pyTruthyId]; omega
      dsimp only
      rw [htruthy]
      obtain ⟨cid, fs1, tr, heq, hwf1, hext, hfound⟩ := ih fs (some i) hwf
      rw [if_pos rfl, heq]
      exact ⟨cid, fs1, Event.getFolderId t parent :: tr, rfl, hwf1, hext,
        i, hext t parent i hl, hi, hfound⟩
    | none =>
      have hg : folderEnv.getFolderId fs t parent = .ok none fs := by
        simp [folderEnv, hl]
      rw [hg]
      dsimp only
      have hins : folderEnv.insertFolder fs t parent =
          .ok fs.nextId (fs.insertNode t parent).2 := rfl
      rw [show pyTruthyId none = false from rfl, if_neg (by simp), hins]
      have hwf2 := FolderStore.insert_wf hwf t parent
      have hext1 := FolderStore.insert_ext t parent hl
      obtain ⟨cid, fs1, tr, heq, hwf1, hext2, hfound⟩ :=
        ih (fs.insertNode t parent).2 (some fs.nextId) hwf2
      dsimp only
      rw [heq]
      refine ⟨cid, fs1, Event.getFolderId t parent :: Event.insertFolder t parent :: tr,
        rfl, hwf1, hext1.trans hext2, fs.nextId, ?_, hwf.1, hfound⟩
      exact hext2 t parent fs.nextId (FolderStore.insert_lookup t parent)

lemma categoryWalk_found (path : List String) : ∀ (fs : FolderStore)
    (parent cid : Option Nat), fs.WF → FoundWalk fs parent path cid →
    ∃ tr, categoryWalk folderEnv fs parent path = .ok cid fs tr ∧
      ∀ t p, Event.insertFolder t p ∉ tr := by
  induction path with
  | nil =>
    intro fs parent cid hwf hfound
    rw [show FoundWalk fs parent [] cid = (cid = parent) from rfl] at hfound
    subst hfound
    exact ⟨[], rfl, fun t p h => (List.not_mem_nil _) h⟩
  | cons t rest ih =>
    intro fs parent cid hwf hfound
    obtain ⟨i, hl, hi, hrest⟩ := hfound
    unfold categoryWalk
    have hg : folderEnv.getFolderId fs t parent = .ok (some i) fs := by
      simp [folderEnv, hl]
    rw [hg]
    dsimp only
    have htruthy : pyTruthyId (some i) = true := by
      simp [pyTruthyId]; omega
    rw [htruthy, if_pos rfl]
    obtain ⟨tr, heq, hni⟩ := ih fs (some i) cid hwf hrest
    rw [heq]
    refine ⟨Event.getFolderId t parent :: tr, rfl, ?_⟩
    intro t2 p2 hmem
    rcases List.mem_cons.mp hmem with h | h
    · exact Event.noConfusion h
    · exact hni t2 p2 h

/-- C6: over a well-formed get-or-create folder store, resolving a non-empty
path twice in sequence returns the same category id both times, and the
second resolution leaves the store untouched and inserts no folder. -/
theorem c6_category_resolution_idempotent (fs : FolderStore) (path : List String)
    (hwf : fs.WF) (hne : path ≠ []) :
    ∃ cid fs1 tr1 tr2,
      getOrCreateComplianceCategory folderEnv fs path = .ok cid fs1 tr1 ∧
      getOrCreateComplianceCategory folderEnv fs1 path = .ok cid fs1 tr2 ∧
      ∀ t p, Event.insertFolder t p ∉ tr2 := by
  obtain ⟨cid, fs1, tr1, heq1, hwf1, hext, hfound⟩ := categoryWalk_spec path fs none hwf
  obtain ⟨tr2, heq2, hni⟩ := categoryWalk_found path fs1 none cid hwf1 hfound
  exact ⟨cid, fs1, tr1, tr2, heq1, heq2, hni⟩

/-- Witness for C6: resolving a two-level path twice over an initially empty
folder store. -/
theorem c6_witness :
    ∃ cid fs1 tr1 tr2,
      getOrCreateComplianceCategory folderEnv ⟨[], 1⟩ ["Banking", "Circulars"] =
        .ok cid fs1 tr1 ∧
      getOrCreateComplianceCategory folderEnv fs1 ["Banking", "Circulars"] =
        .ok cid fs1 tr2 ∧
      ∀ t p, Event.insertFolder t p ∉ tr2 :=
  c6_category_resolution_idempotent ⟨[], 1⟩ ["Banking", "Circulars"]
    (by constructor <;> simp) (by simp)

end RegComp
